import Mathlib

/-!
Shallow embedding of `src/frida_scripts/monitor_file_ops.js`, a Frida
instrumentation script that hooks managed (Java) file-API entry points and
native (libc) network functions, emits structured JSON event lines over
`console.log`, and (for some native hooks) deduplicates events through a
`seenEvents` table.

Modelling conventions:
  * JavaScript exceptions are `Except JSError`.  An identifier that was never
    declared raises `JSError.referenceError` when read (the script reads
    `seenEvents` without ever declaring it).  Calling a method on `null`
    raises `JSError.typeError`.
  * `console.log` output is a list of `Line`s; call sites that print the
    structured JSON record produce `Line.event`, the free-form diagnostic
    call sites produce `Line.diag`.
  * Captured stack frames (`Thread.backtrace(...).map(DebugSymbol.fromAddress)`)
    are `Option String`: `none` is a null frame, `some s` a symbol whose
    `toString()` is `s`.  JavaScript truthiness: an object is truthy, `null`
    is falsy, a string is falsy iff empty.
  * The original implementation forwarded to by a managed hook is a function
    `String → Except JSError R`; a hook run records how many times it invoked
    the original (`origCalls`).
-/

/-- JavaScript error values that the modelled script can raise. -/
inductive JSError where
  /-- Reading an identifier that was never declared. -/
  | referenceError
  /-- Calling a method on `null`/`undefined`. -/
  | typeError
  /-- A failure raised by `console.log` (emission failure). -/
  | emissionError
  /-- A failure raised by `Thread.backtrace` (stack-capture failure). -/
  | backtraceError
deriving DecidableEq, Repr

/-- One `console.log` line: either a free-form diagnostic or a structured
JSON event record. -/
inductive Line where
  /-- Human-readable diagnostic line. -/
  | diag (s : String)
  /-- Structured event line (the JSON records parsed by the extractor). -/
  | event (s : String)
deriving DecidableEq, Repr

/-- Number of structured event lines in a console transcript. -/
def countEvents (ls : List Line) : Nat :=
  (ls.filter fun l => match l with | .event _ => true | .diag _ => false).length

/-- The single-argument structured record built by string concatenation in the
script, e.g. line 45:
`'{"type":"api","name":"' + apiName + '","method":"' + callSite + '","args":{"path":"' + path + '"}}'`. -/
def apiLine (name method argName argVal : String) : String :=
  "\x7b\"type\":\"api\",\"name\":\"" ++ name ++ "\",\"method\":\"" ++ method ++
    "\",\"args\":\x7b\"" ++ argName ++ "\":\"" ++ argVal ++ "\"\x7d\x7d"

/-- The two-argument structured record used by the `socket`, `send` and `recv`
native hooks (lines 137, 171, 189). -/
def apiLine2 (name method a1 v1 a2 v2 : String) : String :=
  "\x7b\"type\":\"api\",\"name\":\"" ++ name ++ "\",\"method\":\"" ++ method ++
    "\",\"args\":\x7b\"" ++ a1 ++ "\":\"" ++ v1 ++ "\",\"" ++ a2 ++ "\":\"" ++ v2 ++
    "\"\x7d\x7d"

/-- Lines 6-13: the `monitoredApis` list. -/
def monitoredApis : List String :=
  ["java.io.File.<init>",
   "java.io.FileInputStream.<init>",
   "java.io.FileOutputStream.<init>",
   "android.content.Context.openFileOutput",
   "android.content.Context.openFileInput",
   "android.content.res.AssetManager.open"]

/-- Lines 16-18: `shouldLogApi(apiName)` = `monitoredApis.includes(apiName)`. -/
def shouldLogApi (apiName : String) : Bool :=
  monitoredApis.contains apiName

/-- JavaScript `s.indexOf("com.example") >= 0`. -/
def containsComExample (s : String) : Bool :=
  decide ("com.example".toList <:+: s.toList)

/-- Lines 28-36: the `callSite` scan.  Walks the frames in order; a `null`
frame is skipped (`stack[i] &&` guard); the first frame whose description
contains `"com.example"` is returned; otherwise the loop leaves `callSite`
equal to the initial `""`. -/
def findAppFrame : List (Option String) → String
  | [] => ""
  | none :: rest => findAppFrame rest
  | some s :: rest => if containsComExample s then s else findAppFrame rest

/-- Lines 28-41: full call-site resolution of the `java.io.File.<init>` hook:
the scan of `findAppFrame` followed by the fallback
`if (!callSite && stack.length > 0) callSite = stack[0].toString();`.
A `""` result of the scan is falsy, so the fallback fires whenever no frame
matched; `stack[0].toString()` raises a `TypeError` when `stack[0]` is null. -/
def resolveCallSite (stack : List (Option String)) : Except JSError String :=
  let callSite := findAppFrame stack
  if callSite = "" then
    match stack with
    | [] => .ok ""
    | none :: _ => .error .typeError
    | some s :: _ => .ok s
  else
    .ok callSite

/-- Host-environment behaviour visible to one managed hook invocation:
the outcome of `Thread.backtrace(...).map(DebugSymbol.fromAddress)` and
whether each of the hook's two `console.log` calls raises. -/
structure ManagedEnv where
  /-- Result of the stack capture on line 27 (may raise). -/
  backtrace : Except JSError (List (Option String))
  /-- The hook's first `console.log` call raises. -/
  log1Throws : Bool
  /-- The hook's second `console.log` call raises. -/
  log2Throws : Bool
deriving Repr

/-- What one hook invocation did: the value (or exception) returned to the
caller, the console transcript, and how many times the original
implementation was invoked. -/
structure HookRun (R : Type) where
  result : Except JSError R
  lines : List Line
  origCalls : Nat
deriving Repr

/-- Lines 22-49: the `java.io.File.$init.overload('java.lang.String')`
replacement.  Gate on `shouldLogApi`, capture and resolve the call site,
print the diagnostic and the structured record, then `return this.$init(path)`.
There is no try/catch: an exception in any step before the `return` propagates
to the caller and the original constructor is never invoked. -/
def fileInitHook (env : ManagedEnv) (orig : String → Except JSError R)
    (path : String) : HookRun R :=
  if shouldLogApi "java.io.File.<init>" then
    match env.backtrace with
    | .error e => ⟨.error e, [], 0⟩
    | .ok stack =>
      match resolveCallSite stack with
      | .error e => ⟨.error e, [], 0⟩
      | .ok callSite =>
        if env.log1Throws then ⟨.error .emissionError, [], 0⟩
        else
          let l1 := Line.diag ("[File] Creating file: " ++ path)
          if env.log2Throws then ⟨.error .emissionError, [l1], 0⟩
          else
            let l2 := Line.event (apiLine "java.io.File.<init>" callSite "path" path)
            ⟨orig path, [l1, l2], 1⟩
  else
    ⟨orig path, [], 1⟩

/-- Lines 53-57: the `java.io.FileOutputStream.$init.overload('java.lang.String')`
replacement: two unconditional `console.log` calls (the structured record has
the literal `"method":"unknown"`), then `return this.$init(path)`. -/
def fosInitHook (env : ManagedEnv) (orig : String → Except JSError R)
    (path : String) : HookRun R :=
  if env.log1Throws then ⟨.error .emissionError, [], 0⟩
  else
    let l1 := Line.diag ("[FileOutputStream] Opening file output stream: " ++ path)
    if env.log2Throws then ⟨.error .emissionError, [l1], 0⟩
    else
      let l2 := Line.event
        (apiLine "java.io.FileOutputStream.<init>" "unknown" "path" path)
      ⟨orig path, [l1, l2], 1⟩

/-- Lines 61-65: the `java.io.FileInputStream.$init.overload('java.lang.String')`
replacement (modelled with infallible `console.log`): two log lines, the
structured record carries the literal `"method":"unknown"`, then the original
constructor runs. -/
def fisInitHook (orig : String → Except JSError R) (path : String) : HookRun R :=
  ⟨orig path,
   [Line.diag ("[FileInputStream] Opening file input stream: " ++ path),
    Line.event (apiLine "java.io.FileInputStream.<init>" "unknown" "path" path)],
   1⟩

/-- Lines 70-74: the `android.content.Context.openFileOutput` replacement
(modelled with infallible `console.log`): two log lines, the structured record
carries the literal `"method":"unknown"` and only the `fileName` argument,
then `return this.openFileOutput(fileName, mode)`. -/
def openFileOutputHook (orig : String → Int → Except JSError R)
    (fileName : String) (mode : Int) : HookRun R :=
  ⟨orig fileName mode,
   [Line.diag ("[Context] Opening file output: " ++ fileName),
    Line.event (apiLine "android.content.Context.openFileOutput" "unknown"
      "fileName" fileName)],
   1⟩

/-- Lines 119-125: the `switch(this.domain)` naming of the socket domain;
the `default` branch is `this.domain.toString()`. -/
def domainName (domain : Int) : String :=
  if domain = 0 then "AF_UNSPEC"
  else if domain = 1 then "AF_UNIX"
  else if domain = 2 then "AF_INET"
  else if domain = 10 then "AF_INET6"
  else toString domain

/-- Lines 128-134: the `switch(this.type)` naming of the socket type;
the `default` branch is `this.type.toString()`. -/
def typeName (ty : Int) : String :=
  if ty = 1 then "SOCK_STREAM"
  else if ty = 2 then "SOCK_DGRAM"
  else if ty = 3 then "SOCK_RAW"
  else toString ty

/-- Lines 112-139: the `socket` `onEnter` callback.  It reads
`args[0].toInt32()` and `args[1].toInt32()`, names them, and unconditionally
prints one diagnostic and one structured record — it never consults any
dedup state. -/
def socketOnEnter (domain ty : Int) : List Line :=
  [Line.diag ("[Native] Creating socket: domain=" ++ domainName domain ++
      ", type=" ++ typeName ty),
   Line.event (apiLine2 "libc.socket" "native"
      "domain" (domainName domain) "type" (typeName ty))]

/-- The script-global JavaScript state touched by the native hooks.
`seenEvents` is `some m` when a variable `seenEvents` holding the table `m`
is in scope, and `none` when the identifier was never declared — which is the
actual state of the script: no `var seenEvents = {...}` (or any other
declaration of it) appears anywhere in the file, so every read of
`seenEvents` raises a `ReferenceError`. -/
structure NativeState where
  seenEvents : Option (List String)
deriving DecidableEq, Repr

/-- The state the script actually starts in: `seenEvents` was never
declared. -/
def initState : NativeState := ⟨none⟩

/-- The `!seenEvents[eventId]` test followed (when it passes) by
`seenEvents[eventId] = true` and the two `console.log` calls: the shared
shape of the `connect`/`send`/`recv` `onEnter` bodies (lines 149-154,
167-172, 185-190).  Reading `seenEvents` when it was never declared raises
`ReferenceError`; a missing key reads as `undefined`, which is falsy. -/
def dedupEmit (st : NativeState) (eventId : String) (out : List Line) :
    Except JSError (NativeState × List Line) :=
  match st.seenEvents with
  | none => .error .referenceError
  | some seen =>
    if seen.contains eventId then .ok (st, [])
    else .ok (⟨some (eventId :: seen)⟩, out)

/-- Lines 142-156: the `connect` `onEnter` callback.  `eventId` is
`"connect_" + sockfd` (descriptor alone). -/
def connectOnEnter (st : NativeState) (sockfd : Int) :
    Except JSError (NativeState × List Line) :=
  let eventId := "connect_" ++ toString sockfd
  dedupEmit st eventId
    [Line.diag ("[Native] Connect called with sockfd: " ++ toString sockfd),
     Line.event (apiLine "libc.connect" "native" "sockfd" (toString sockfd))]

/-- Lines 159-174: the `send` `onEnter` callback.  `eventId` is
`"send_" + sockfd + "_" + dataSize`. -/
def sendOnEnter (st : NativeState) (sockfd dataSize : Int) :
    Except JSError (NativeState × List Line) :=
  let eventId := "send_" ++ toString sockfd ++ "_" ++ toString dataSize
  dedupEmit st eventId
    [Line.diag ("[Native] Sending " ++ toString dataSize ++ " bytes on socket " ++
        toString sockfd),
     Line.event (apiLine2 "libc.send" "native"
        "sockfd" (toString sockfd) "size" (toString dataSize))]

/-- Lines 177-192: the `recv` `onEnter` callback.  `eventId` is
`"recv_" + sockfd + "_" + bufferSize`. -/
def recvOnEnter (st : NativeState) (sockfd bufferSize : Int) :
    Except JSError (NativeState × List Line) :=
  let eventId := "recv_" ++ toString sockfd ++ "_" ++ toString bufferSize
  dedupEmit st eventId
    [Line.diag ("[Native] Receiving up to " ++ toString bufferSize ++
        " bytes on socket " ++ toString sockfd),
     Line.event (apiLine2 "libc.recv" "native"
        "sockfd" (toString sockfd) "size" (toString bufferSize))]

/-- A sequence of intercepted `connect` calls.  Frida catches an exception
raised by an `onEnter` callback, reports it, and lets the native call (and
subsequent interceptions) proceed, so an erroring interception contributes no
output and leaves the state unchanged. -/
def runConnectCalls : NativeState → List Int → NativeState × List Line
  | st, [] => (st, [])
  | st, fd :: rest =>
    match connectOnEnter st fd with
    | .ok (st2, out) =>
      let (st3, out2) := runConnectCalls st2 rest
      (st3, out ++ out2)
    | .error _ => runConnectCalls st rest

/-- A sequence of intercepted `send` calls, with the same Frida exception
handling as `runConnectCalls`. -/
def runSendCalls : NativeState → List (Int × Int) → NativeState × List Line
  | st, [] => (st, [])
  | st, (fd, sz) :: rest =>
    match sendOnEnter st fd sz with
    | .ok (st2, out) =>
      let (st3, out2) := runSendCalls st2 rest
      (st3, out ++ out2)
    | .error _ => runSendCalls st rest

/-- Which optional symbols exist in the running process.  The managed
framework classes used unconditionally (`java.io.File`,
`java.io.FileOutputStream`, `java.io.FileInputStream`,
`android.content.Context`, `android.app.Activity`) are always present on the
platform and are not parameters. -/
structure Avail where
  /-- Class `com.example.fridatestjavaapp.MainActivity` resolves (line 85). -/
  mainActivity : Bool
  /-- Class `com.example.fridatestjavaapp.MainActivity$1` resolves (line 96). -/
  mainActivityInner : Bool
  /-- Export lookup of `"socket"` in `libc.so` is non-null (line 112). -/
  socket : Bool
  /-- Export lookup of `"connect"` in `libc.so` is non-null (line 142). -/
  connect : Bool
  /-- Export lookup of `"send"` in `libc.so` is non-null (line 159). -/
  send : Bool
  /-- Export lookup of `"recv"` in `libc.so` is non-null (line 177). -/
  recv : Bool
deriving DecidableEq, Repr

/-- The managed hooks registered unconditionally before the two guarded
`Java.use` lookups (lines 21-82). -/
def managedTargets : List String :=
  ["java.io.File.<init>", "java.io.FileOutputStream.<init>",
   "java.io.FileInputStream.<init>", "android.content.Context.openFileOutput",
   "android.app.Activity.onCreate"]

/-- Target name of the `MainActivity.setupFileOperationButton` hook. -/
def maTarget : String :=
  "com.example.fridatestjavaapp.MainActivity.setupFileOperationButton"

/-- Target name of the `MainActivity$1.onClick` hook. -/
def ma1Target : String := "com.example.fridatestjavaapp.MainActivity$1.onClick"

/-- Lines 110-196: the single try/catch wrapping all four
`Interceptor.attach` calls.  `Module.findExportByName` yields null for an
absent export, `Interceptor.attach(null, ...)` throws, and control jumps to
the one catch block on line 194 — so every attach after the missing one is
skipped.  Returns the native hooks actually registered and the diagnostic
output of the catch block (the text appended from the exception object is
elided as `"Error"`). -/
def nativeRegistration (av : Avail) : List String × List Line :=
  let errLine := Line.diag "Error setting up native network hooks: Error"
  if !av.socket then ([], [errLine])
  else if !av.connect then (["libc.socket"], [errLine])
  else if !av.send then (["libc.socket", "libc.connect"], [errLine])
  else if !av.recv then (["libc.socket", "libc.connect", "libc.send"], [errLine])
  else (["libc.socket", "libc.connect", "libc.send", "libc.recv"], [])

/-- The whole `Java.perform` registration sequence: the unconditional managed
hooks, the two individually try/catch-guarded `MainActivity` hooks (lines
84-103, each absence recovered locally with its own diagnostic), then the
native hooks of `nativeRegistration`.  Returns the list of registered hook
targets in registration order and the diagnostic lines of the catch
blocks. -/
def registerHooks (av : Avail) : List String × List Line :=
  let ma := if av.mainActivity then ([maTarget], ([] : List Line))
    else ([], [Line.diag "Could not monitor setupFileOperationButton: Error"])
  let ma1 := if av.mainActivityInner then ([ma1Target], ([] : List Line))
    else ([], [Line.diag "Could not monitor MainActivity$1: Error"])
  let native := nativeRegistration av
  (managedTargets ++ ma.1 ++ ma1.1 ++ native.1, ma.2 ++ ma1.2 ++ native.2)

/-- The console transcript of `n` back-to-back invocations that each produce
the line list `ls`. -/
def iterateLines (ls : List Line) : Nat → List Line
  | 0 => []
  | n + 1 => ls ++ iterateLines ls n

/-- The per-frame selection made by the loop on lines 31-36, as a partial
choice: a truthy frame whose description contains `"com.example"` is chosen,
anything else is passed over. -/
def appFrameDescr : Option String → Option String
  | none => none
  | some s => if containsComExample s then some s else none

/-- Description of the first frame matching the application-namespace
predicate, scanning most-recent-first; `none` when no frame matches.  This is
the claim-side statement of the scan, to be compared with the source-side
`findAppFrame`/`resolveCallSite`. -/
def firstAppFrame : List (Option String) → Option String
  | [] => none
  | f :: rest =>
    match appFrameDescr f with
    | some s => some s
    | none => firstAppFrame rest

/-- The `java.io.File.<init>` gate on line 25 passes. -/
theorem shouldLog_file : shouldLogApi "java.io.File.<init>" = true := rfl

/-- Structured-line count distributes over transcript concatenation. -/
theorem countEvents_append (a b : List Line) :
    countEvents (a ++ b) = countEvents a + countEvents b := by
  simp [countEvents, List.filter_append]

/-- Structured-line count of `n` identical invocations. -/
theorem countEvents_iterate (ls : List Line) (n : Nat) :
    countEvents (iterateLines ls n) = n * countEvents ls := by
  induction n with
  | zero => simp [iterateLines, countEvents]
  | succ k ih =>
    simp only [iterateLines, countEvents_append, ih, Nat.succ_mul]
    exact Nat.add_comm _ _

/-- The loop of lines 31-36 computes the first application frame, with `""`
encoding "no frame matched". -/
theorem findAppFrame_eq (stack : List (Option String)) :
    findAppFrame stack = (firstAppFrame stack).getD "" := by
  induction stack with
  | nil => rfl
  | cons f rest ih =>
    cases f with
    | none => simpa [findAppFrame, firstAppFrame, appFrameDescr] using ih
    | some s =>
      by_cases h : containsComExample s = true
      · simp [findAppFrame, firstAppFrame, appFrameDescr, h]
      · simp only [Bool.not_eq_true] at h
        simpa [findAppFrame, firstAppFrame, appFrameDescr, h] using ih

/-- A frame selected by `firstAppFrame` contains `"com.example"`. -/
theorem firstAppFrame_contains {stack : List (Option String)} {s : String}
    (h : firstAppFrame stack = some s) : containsComExample s = true := by
  induction stack with
  | nil => simp [firstAppFrame] at h
  | cons f rest ih =>
    cases f with
    | none => exact ih (by simpa [firstAppFrame, appFrameDescr] using h)
    | some t =>
      by_cases ht : containsComExample t = true
      · simp [firstAppFrame, appFrameDescr, ht] at h
        subst h; exact ht
      · simp only [Bool.not_eq_true] at ht
        exact ih (by simpa [firstAppFrame, appFrameDescr, ht] using h)

/-- A frame selected by `firstAppFrame` is nonempty (the empty string cannot
contain `"com.example"`). -/
theorem firstAppFrame_ne_empty {stack : List (Option String)} {s : String}
    (h : firstAppFrame stack = some s) : s ≠ "" := by
  intro he
  subst he
  exact absurd (firstAppFrame_contains h) (by decide)

/-- Resolution on a stack whose first frame is non-null: the first
application frame when one exists, the first frame otherwise. -/
theorem resolveCallSite_cons (d : String) (rest : List (Option String)) :
    resolveCallSite (some d :: rest) =
      Except.ok ((firstAppFrame (some d :: rest)).getD d) := by
  have hf := findAppFrame_eq (some d :: rest)
  cases h : firstAppFrame (some d :: rest) with
  | none =>
    rw [h] at hf
    simp only [Option.getD_none] at hf
    simp [resolveCallSite, hf, h]
  | some s =>
    rw [h] at hf
    simp only [Option.getD_some] at hf
    have hne : s ≠ "" := firstAppFrame_ne_empty h
    simp [resolveCallSite, hf, h, hne]

/-- C5 counterexample: on an empty captured frame sequence the `callSite`
variable keeps its initial value `""`, so resolution yields the empty string,
not the sentinel `"unknown"` the claim states. -/
theorem resolve_empty_not_unknown :
    resolveCallSite [] ≠ Except.ok "unknown" := by
  intro h
  have h0 : resolveCallSite [] = Except.ok "" := rfl
  rw [h0] at h
  exact absurd (Except.ok.inj h) (by decide)

/-- C5 amended: if the captured stack-frame sequence is empty, call-site
resolution returns the empty string `""` (so the emitted method field of the
`java.io.File.<init>` event is empty) and never raises. -/
theorem resolve_empty_returns_empty :
    resolveCallSite [] = Except.ok "" ∧
    ∀ path : String,
      (fileInitHook ⟨Except.ok [], false, false⟩ (fun p => Except.ok p) path).lines =
        [Line.diag ("[File] Creating file: " ++ path),
         Line.event (apiLine "java.io.File.<init>" "" "path" path)] :=
  ⟨rfl, fun _ => rfl⟩

/-- C6: for a captured frame sequence whose first frame is non-null,
resolution returns the description of the first frame containing
`"com.example"` (scanning most-recent-first) and falls back to the first
frame's description when no frame matches; the `java.io.File.<init>` hook
emits a structured event whose method field is exactly that resolution. -/
theorem resolve_first_app_frame (d : String) (rest stack : List (Option String))
    (hst : stack = some d :: rest) :
    resolveCallSite stack = Except.ok ((firstAppFrame stack).getD d) ∧
    ∀ path : String,
      (fileInitHook ⟨Except.ok stack, false, false⟩ (fun p => Except.ok p) path).lines =
        [Line.diag ("[File] Creating file: " ++ path),
         Line.event (apiLine "java.io.File.<init>"
            ((firstAppFrame stack).getD d) "path" path)] := by
  subst hst
  have hres := resolveCallSite_cons d rest
  refine ⟨hres, fun path => ?_⟩
  simp [fileInitHook, shouldLog_file, hres]

/-- C6 witness: a stack with a library frame on top and an application frame
below it resolves to the application frame. -/
theorem resolve_first_app_frame_witness :
    resolveCallSite [some "libart.so!0x1234", some "com.example.app.Main.run"] =
      Except.ok "com.example.app.Main.run" := by
  have h := (resolve_first_app_frame "libart.so!0x1234"
    [some "com.example.app.Main.run"] _ rfl).1
  exact h.trans (congrArg Except.ok (by decide))

/-- C9: the `socket` hook emits exactly one structured event on every call,
with the total domain naming (0, 1, 2, 10 mapped to the `AF_*` names, decimal
string otherwise) and the total type naming (1, 2, 3 mapped to the `SOCK_*`
names, decimal string otherwise). -/
theorem socket_hook_total_mapping :
    (∀ domain ty : Int,
        countEvents (socketOnEnter domain ty) = 1 ∧
        Line.event (apiLine2 "libc.socket" "native"
            "domain" (domainName domain) "type" (typeName ty)) ∈
          socketOnEnter domain ty) ∧
    (domainName 0 = "AF_UNSPEC" ∧ domainName 1 = "AF_UNIX" ∧
      domainName 2 = "AF_INET" ∧ domainName 10 = "AF_INET6") ∧
    (typeName 1 = "SOCK_STREAM" ∧ typeName 2 = "SOCK_DGRAM" ∧
      typeName 3 = "SOCK_RAW") ∧
    (∀ domain : Int, domain ≠ 0 → domain ≠ 1 → domain ≠ 2 → domain ≠ 10 →
        domainName domain = toString domain) ∧
    (∀ ty : Int, ty ≠ 1 → ty ≠ 2 → ty ≠ 3 → typeName ty = toString ty) := by
  refine ⟨fun domain ty => ⟨rfl, ?_⟩, ⟨rfl, rfl, rfl, rfl⟩, ⟨rfl, rfl, rfl⟩, ?_, ?_⟩
  · exact List.Mem.tail _ (List.Mem.head _)
  · intro domain h0 h1 h2 h10
    simp [domainName, h0, h1, h2, h10]
  · intro ty h1 h2 h3
    simp [typeName, h1, h2, h3]

/-- C9 witness: an unmapped domain 7 and unmapped type 9 fall through to the
decimal rendering. -/
theorem socket_hook_total_mapping_witness :
    domainName 7 = toString (7 : Int) ∧ typeName 9 = toString (9 : Int) :=
  ⟨socket_hook_total_mapping.2.2.2.1 7 (by decide) (by decide) (by decide)
      (by decide),
   socket_hook_total_mapping.2.2.2.2 9 (by decide) (by decide) (by decide)⟩

/-- C1 counterexample: the managed hook bodies have no try/catch, so when the
stack capture of the `java.io.File.<init>` hook raises, the exception
propagates to the caller, the original constructor is invoked zero times (not
exactly once), and the caller sees the instrumentation's exception instead of
the original result. -/
theorem file_hook_exception_suppresses_call :
    (fileInitHook ⟨Except.error JSError.backtraceError, false, false⟩
        (fun p => Except.ok p) "/data/a.txt").origCalls = 0 ∧
    (fileInitHook ⟨Except.error JSError.backtraceError, false, false⟩
        (fun p => Except.ok p) "/data/a.txt").result =
      Except.error JSError.backtraceError :=
  ⟨rfl, rfl⟩

/-- C1 amended: for every intercepted call of the `java.io.File.<init>` and
`java.io.FileOutputStream.<init>` hooks in which extraction, call-site
resolution and emission raise no exception, the hook forwards the invocation
to the original implementation exactly once and returns its unmodified result
(value or exception); an exception raised in those steps instead propagates
to the caller and the original implementation is not invoked. -/
theorem managed_hook_transparency (R : Type) (env : ManagedEnv)
    (st : List (Option String)) (cs : String)
    (orig : String → Except JSError R) (path : String)
    (hbt : env.backtrace = Except.ok st)
    (hres : resolveCallSite st = Except.ok cs)
    (h1 : env.log1Throws = false) (h2 : env.log2Throws = false) :
    ((fileInitHook env orig path).result = orig path ∧
      (fileInitHook env orig path).origCalls = 1) ∧
    ((fosInitHook env orig path).result = orig path ∧
      (fosInitHook env orig path).origCalls = 1) := by
  obtain ⟨bt, b1, b2⟩ := env
  simp only at hbt h1 h2
  subst hbt h1 h2
  refine ⟨?_, ⟨rfl, rfl⟩⟩
  constructor <;> simp [fileInitHook, shouldLog_file, hres]

/-- C1 witness: with an empty captured stack and infallible logging, both
hooks return the original's value and invoke it once. -/
theorem managed_hook_transparency_witness :
    ((fileInitHook ⟨Except.ok [], false, false⟩ (fun p => Except.ok p) "w").result =
        Except.ok "w" ∧
      (fileInitHook ⟨Except.ok [], false, false⟩ (fun p => Except.ok p) "w").origCalls = 1) ∧
    ((fosInitHook ⟨Except.ok [], false, false⟩ (fun p => Except.ok p) "w").result =
        Except.ok "w" ∧
      (fosInitHook ⟨Except.ok [], false, false⟩ (fun p => Except.ok p) "w").origCalls = 1) :=
  managed_hook_transparency String ⟨Except.ok [], false, false⟩ [] ""
    (fun p => Except.ok p) "w" rfl rfl rfl rfl

/-- C7: managed hooks keep no dedup state, so `n` invocations of any managed
target with identical arguments emit `n` structured event lines. -/
theorem managed_events_never_deduplicated (n : Nat) (path fn : String) (mode : Int) :
    countEvents (iterateLines
        (fileInitHook ⟨Except.ok [], false, false⟩
          (fun p => Except.ok p) path).lines n) = n ∧
    countEvents (iterateLines
        (fosInitHook ⟨Except.ok [], false, false⟩
          (fun p => Except.ok p) path).lines n) = n ∧
    countEvents (iterateLines (fisInitHook (fun p => Except.ok p) path).lines n) = n ∧
    countEvents (iterateLines
        (openFileOutputHook (fun f _ => Except.ok f) fn mode).lines n) = n := by
  have key : ∀ ls : List Line, countEvents ls = 1 →
      countEvents (iterateLines ls n) = n := by
    intro ls h
    rw [countEvents_iterate, h, Nat.mul_one]
  exact ⟨key _ rfl, key _ rfl, key _ rfl, key _ rfl⟩

/-- C10: the `FileOutputStream`, `FileInputStream` and `openFileOutput` hooks
emit the literal `"unknown"` method field on every invocation and never look
at a captured stack; only the `java.io.File.<init>` hook resolves a call site
(its emitted lines vary with the captured stack). -/
theorem managed_unknown_method (env : ManagedEnv) (path fn : String) (mode : Int)
    (h1 : env.log1Throws = false) (h2 : env.log2Throws = false) :
    (fosInitHook env (fun p => Except.ok p) path).lines =
      [Line.diag ("[FileOutputStream] Opening file output stream: " ++ path),
       Line.event (apiLine "java.io.FileOutputStream.<init>" "unknown" "path" path)] ∧
    (fisInitHook (fun p => Except.ok p) path).lines =
      [Line.diag ("[FileInputStream] Opening file input stream: " ++ path),
       Line.event (apiLine "java.io.FileInputStream.<init>" "unknown" "path" path)] ∧
    (openFileOutputHook (fun f _ => Except.ok f) fn mode).lines =
      [Line.diag ("[Context] Opening file output: " ++ fn),
       Line.event (apiLine "android.content.Context.openFileOutput" "unknown"
          "fileName" fn)] ∧
    (fileInitHook ⟨Except.ok [some "com.example.app.A.b"], false, false⟩
        (fun p => Except.ok p) "p").lines ≠
      (fileInitHook ⟨Except.ok [], false, false⟩ (fun p => Except.ok p) "p").lines := by
  obtain ⟨bt, b1, b2⟩ := env
  simp only at h1 h2
  subst h1 h2
  exact ⟨rfl, rfl, rfl, by decide⟩

/-- C10 witness: concrete invocations of the three constant-method hooks. -/
theorem managed_unknown_method_witness :
    (fosInitHook ⟨Except.ok [], false, false⟩ (fun p => Except.ok p) "a").lines =
      [Line.diag ("[FileOutputStream] Opening file output stream: " ++ "a"),
       Line.event (apiLine "java.io.FileOutputStream.<init>" "unknown" "path" "a")] ∧
    (fisInitHook (fun p => Except.ok p) "a").lines =
      [Line.diag ("[FileInputStream] Opening file input stream: " ++ "a"),
       Line.event (apiLine "java.io.FileInputStream.<init>" "unknown" "path" "a")] ∧
    (openFileOutputHook (fun f _ => Except.ok f) "b" 0).lines =
      [Line.diag ("[Context] Opening file output: " ++ "b"),
       Line.event (apiLine "android.content.Context.openFileOutput" "unknown"
          "fileName" "b")] ∧
    (fileInitHook ⟨Except.ok [some "com.example.app.A.b"], false, false⟩
        (fun p => Except.ok p) "p").lines ≠
      (fileInitHook ⟨Except.ok [], false, false⟩ (fun p => Except.ok p) "p").lines :=
  managed_unknown_method ⟨Except.ok [], false, false⟩ "a" "b" 0 rfl rfl

/-- C2: evaluated at the failing input — because the script never declares
`seenEvents`, the very first `connect` interception raises a
`ReferenceError` at the `!seenEvents[eventId]` read and emits no structured
event line at all, contradicting "the first interception carrying that pair
always emits its event line". -/
theorem connect_first_call_emits_nothing :
    connectOnEnter initState 7 = Except.error JSError.referenceError ∧
    (runConnectCalls initState [7]).2 = [] :=
  ⟨rfl, rfl⟩

/-- Intended behaviour for contrast: had `seenEvents` been declared as an
empty table, a repeated `connect` on one descriptor would emit exactly the
first event, as the dedup logic is written to do. -/
theorem connect_dedup_if_declared :
    (runConnectCalls ⟨some []⟩ [5, 5]).2 =
      [Line.diag "[Native] Connect called with sockfd: 5",
       Line.event (apiLine "libc.connect" "native" "sockfd" "5")] := rfl

/-- C3: evaluated at the failing input — two successive `connect` calls on
descriptor 5 emit zero `libc.connect` structured events (each interception
raises a `ReferenceError` reading the undeclared `seenEvents`), not the
exactly-one event the claim states. -/
theorem connect_twice_emits_nothing :
    (runConnectCalls initState [5, 5]).2 = [] ∧
    connectOnEnter initState 5 = Except.error JSError.referenceError :=
  ⟨rfl, rfl⟩

/-- C4: evaluated at the failing input — `send` on descriptor 5 with sizes
10, 20, 10 emits zero structured events (every interception raises a
`ReferenceError` reading the undeclared `seenEvents`), not the two distinct
events the claim states. -/
theorem send_calls_emit_nothing :
    (runSendCalls initState [(5, 10), (5, 20), (5, 10)]).2 = [] ∧
    sendOnEnter initState 5 10 = Except.error JSError.referenceError :=
  ⟨rfl, rfl⟩

/-- Intended behaviour for contrast: with `seenEvents` declared as an empty
table, the size-10, size-20, size-10 sequence on descriptor 5 would emit
exactly two structured events, keyed on (descriptor, byte-count). -/
theorem send_dedup_if_declared :
    countEvents (runSendCalls ⟨some []⟩ [(5, 10), (5, 20), (5, 10)]).2 = 2 := rfl

/-- C8 counterexample: all four native `Interceptor.attach` calls share one
try/catch, so when the `connect` export alone is absent, the `send` and
`recv` hooks are also never registered — other targets do not all remain
active as the claim states. -/
theorem connect_absence_skips_send_hook :
    "libc.send" ∉ (registerHooks ⟨true, true, true, false, true, true⟩).1 ∧
    "libc.recv" ∉ (registerHooks ⟨true, true, true, false, true, true⟩).1 := by
  decide

/-- C8 amended: absence of the `MainActivity` (or `MainActivity$1`) managed
symbol is recovered locally — that one hook is skipped, a diagnostic line is
emitted, and every other target still registers; but absence of a native
symbol skips that target and every later native target (one shared try
block), leaving only the managed hooks unaffected. -/
theorem target_unavailable_skip (av : Avail)
    (h : av = ⟨false, true, true, true, true, true⟩) :
    (maTarget ∉ (registerHooks av).1 ∧
      (∀ t ∈ managedTargets, t ∈ (registerHooks av).1) ∧
      ma1Target ∈ (registerHooks av).1 ∧
      (∀ t ∈ ["libc.socket", "libc.connect", "libc.send", "libc.recv"],
          t ∈ (registerHooks av).1) ∧
      Line.diag "Could not monitor setupFileOperationButton: Error" ∈
        (registerHooks av).2) ∧
    (∀ b1 b2 b3 b5 b6 : Bool,
        "libc.send" ∉ (registerHooks ⟨b1, b2, b3, false, b5, b6⟩).1 ∧
        "libc.recv" ∉ (registerHooks ⟨b1, b2, b3, false, b5, b6⟩).1 ∧
        (∀ t ∈ managedTargets, t ∈ (registerHooks ⟨b1, b2, b3, false, b5, b6⟩).1)) := by
  subst h
  decide

/-- C8 witness: with only `MainActivity` absent, its hook is indeed the one
skipped. -/
theorem target_unavailable_skip_witness :
    maTarget ∉ (registerHooks ⟨false, true, true, true, true, true⟩).1 :=
  (target_unavailable_skip ⟨false, true, true, true, true, true⟩ rfl).1.1


